import Mathlib

/-!
Verification development for the PixelPerfectPOC visual-regression tool.

The definitions below are a shallow embedding of the capture/diff engine in
`src/services/screenshotService.js` (and its more evolved variant
`src/unnamed/part_000`), of the request-option merging in the routing layer
(`src/unnamed/part_006`), and of the per-pixel comparison performed by the
`pixelmatch` npm dependency that `computeVisualDiff` calls.  JavaScript
numbers are modelled as exact rationals (`ℚ`), byte buffers as total
functions from byte positions to byte values, and fallible code as
`Except`/`Option` values.
-/

namespace PixelPerfect

/-- JavaScript `x || d` for a possibly-absent number: `undefined` and `0` are
falsy, so both fall back to the default. -/
def jsOrNum : Option ℚ → ℚ → ℚ
  | none, d => d
  | some v, d => if v = 0 then d else v

/-- JavaScript `Math.round`: round half toward positive infinity,
`Math.round x = ⌊x + 1/2⌋`. -/
def jsRound (q : ℚ) : ℤ := ⌊q + 1 / 2⌋

/-- Whether `pat` occurs as a contiguous run inside the second list. -/
def jsIncludesChars (pat : List Char) : List Char → Bool
  | [] => pat.isEmpty
  | c :: rest => pat.isPrefixOf (c :: rest) || jsIncludesChars pat rest

/-- JavaScript `String.prototype.includes`: `s.includes(pat)` holds iff the
pattern occurs as a contiguous substring of `s`. -/
def jsIncludes (s pat : String) : Bool := jsIncludesChars pat.data s.data

/-- A decoded RGBA raster as `pngjs` returns it from `PNG.sync.read`:
`width`/`height` in pixels and a flat byte buffer (`data`), four bytes per
pixel, addressed by byte position.  Positions outside the buffer read 0. -/
structure Image where
  width : Nat
  height : Nat
  data : Nat → Nat

instance : Inhabited Image := ⟨⟨0, 0, fun _ => 0⟩⟩

/-! ### The pixelmatch dependency

Modelled from the spec: the `pixelmatch` npm library called at
`computeVisualDiff` is not part of the repository's files, so its per-pixel
comparison is embedded here following the spec's description (a perceptual
YIQ color-distance test against a configurable `threshold`, with an
`includeAA` flag controlling whether plausible anti-aliasing artifacts count
as changes) and the library's published v5 algorithm: a pixel is changed when
the squared YIQ distance exceeds `35215 * threshold^2`, and, when
`includeAA` is false, when it is additionally not classified as
anti-aliasing by the neighbour scan below. -/

/-- `blend(c, a) = 255 + (c - 255) * a`: blend a channel onto white by its
alpha. -/
def blend (c a : ℚ) : ℚ := 255 + (c - 255) * a

/-- YIQ luma of an RGB triple. -/
def rgb2y (r g b : ℚ) : ℚ := r * 0.29889531 + g * 0.58662247 + b * 0.11448223

/-- YIQ in-phase component of an RGB triple. -/
def rgb2i (r g b : ℚ) : ℚ := r * 0.59597799 - g * 0.27417610 - b * 0.32180189

/-- YIQ quadrature component of an RGB triple. -/
def rgb2q (r g b : ℚ) : ℚ := r * 0.21147017 - g * 0.52261711 + b * 0.31114694

/-- Squared perceptual distance between the pixels at byte positions `k` of
buffer `d1` and `m` of buffer `d2`; equal RGBA bytes give 0, semi-transparent
pixels are blended onto white first, and the sign records whether the first
pixel is lighter.  With `yOnly` set only the brightness difference is
returned. -/
def colorDelta (d1 d2 : Nat → Nat) (k m : Nat) (yOnly : Bool) : ℚ :=
  if d1 k = d2 m ∧ d1 (k+1) = d2 (m+1) ∧ d1 (k+2) = d2 (m+2) ∧ d1 (k+3) = d2 (m+3) then 0
  else
    let a1n := d1 (k+3)
    let a2n := d2 (m+3)
    let r1 : ℚ := if a1n < 255 then blend (d1 k) ((a1n : ℚ) / 255) else (d1 k : ℚ)
    let g1 : ℚ := if a1n < 255 then blend (d1 (k+1)) ((a1n : ℚ) / 255) else (d1 (k+1) : ℚ)
    let b1 : ℚ := if a1n < 255 then blend (d1 (k+2)) ((a1n : ℚ) / 255) else (d1 (k+2) : ℚ)
    let r2 : ℚ := if a2n < 255 then blend (d2 m) ((a2n : ℚ) / 255) else (d2 m : ℚ)
    let g2 : ℚ := if a2n < 255 then blend (d2 (m+1)) ((a2n : ℚ) / 255) else (d2 (m+1) : ℚ)
    let b2 : ℚ := if a2n < 255 then blend (d2 (m+2)) ((a2n : ℚ) / 255) else (d2 (m+2) : ℚ)
    let y1 := rgb2y r1 g1 b1
    let y2 := rgb2y r2 g2 b2
    let y := y1 - y2
    if yOnly then y
    else
      let i := rgb2i r1 g1 b1 - rgb2i r2 g2 b2
      let q := rgb2q r1 g1 b1 - rgb2q r2 g2 b2
      let delta := 0.5053 * y * y + 0.299 * i * i + 0.1957 * q * q
      if y1 > y2 then -delta else delta

/-- The 8-neighbourhood of `(x1, y1)` clamped to the raster, in the scan
order of pixelmatch's nested loops (x outer, y inner), centre excluded. -/
def neighborList (x1 y1 w h : Nat) : List (Nat × Nat) :=
  let x0 := x1 - 1
  let y0 := y1 - 1
  let x2 := min (x1 + 1) (w - 1)
  let y2 := min (y1 + 1) (h - 1)
  (List.range' x0 (x2 + 1 - x0)).flatMap fun x =>
    (List.range' y0 (y2 + 1 - y0)).filterMap fun y =>
      if x = x1 ∧ y = y1 then none else some (x, y)

/-- 1 when the pixel sits on an edge of the raster (pixelmatch seeds the
equal-sibling counter with it), else 0. -/
def edgeSeed (x1 y1 w h : Nat) : Nat :=
  if x1 = x1 - 1 ∨ x1 = min (x1 + 1) (w - 1) ∨ y1 = y1 - 1 ∨ y1 = min (y1 + 1) (h - 1)
  then 1 else 0

/-- Accumulator of the anti-aliasing neighbour scan: equal-sibling count and
the darkest/brightest neighbours found so far. -/
structure AAScan where
  zeroes : Nat
  minD : ℚ
  minX : Nat
  minY : Nat
  maxD : ℚ
  maxX : Nat
  maxY : Nat

/-- The neighbour scan of pixelmatch's `antialiased`: count equal-brightness
siblings (abort with `none` — JS `return false` — past two), and track the
darkest and brightest neighbour of the centre pixel at byte position
`pos`. -/
def aaScanLoop (d : Nat → Nat) (pos w : Nat) : List (Nat × Nat) → AAScan → Option AAScan
  | [], acc => some acc
  | (x, y) :: rest, acc =>
    let delta := colorDelta d d pos ((y * w + x) * 4) true
    if delta = 0 then
      if acc.zeroes + 1 > 2 then none
      else aaScanLoop d pos w rest { acc with zeroes := acc.zeroes + 1 }
    else if delta < acc.minD then
      aaScanLoop d pos w rest { acc with minD := delta, minX := x, minY := y }
    else if delta > acc.maxD then
      aaScanLoop d pos w rest { acc with maxD := delta, maxX := x, maxY := y }
    else aaScanLoop d pos w rest acc

/-- pixelmatch's `hasManySiblings`: the pixel at `(x1, y1)` has more than two
adjacent pixels with exactly its RGBA bytes (edge pixels start at one). -/
def hasManySiblings (d : Nat → Nat) (x1 y1 w h : Nat) : Bool :=
  let pos := (y1 * w + x1) * 4
  let rec go : List (Nat × Nat) → Nat → Bool
    | [], _ => false
    | (x, y) :: rest, zeroes =>
      let pos2 := (y * w + x) * 4
      let zeroes' :=
        if d pos = d pos2 ∧ d (pos+1) = d (pos2+1) ∧ d (pos+2) = d (pos2+2) ∧
            d (pos+3) = d (pos2+3)
        then zeroes + 1 else zeroes
      if zeroes' > 2 then true else go rest zeroes'
  go (neighborList x1 y1 w h) (edgeSeed x1 y1 w h)

/-- pixelmatch's `antialiased`: the pixel of `img` at `(x1, y1)` looks like an
anti-aliasing artifact — it has at most two equal siblings, both a darker and
a brighter neighbour, and its extreme neighbour has many equal siblings in
both images. -/
def antialiased (img : Image) (x1 y1 w h : Nat) (img2 : Image) : Bool :=
  let pos := (y1 * w + x1) * 4
  match aaScanLoop img.data pos w (neighborList x1 y1 w h)
      ⟨edgeSeed x1 y1 w h, 0, 0, 0, 0, 0, 0⟩ with
  | none => false
  | some acc =>
    if acc.minD = 0 ∨ acc.maxD = 0 then false
    else
      (hasManySiblings img.data acc.minX acc.minY w h &&
        hasManySiblings img2.data acc.minX acc.minY w h) ||
      (hasManySiblings img.data acc.maxX acc.maxY w h &&
        hasManySiblings img2.data acc.maxX acc.maxY w h)

/-- Options handed to the pixel comparison: `threshold` in [0,1] and the
`includeAA` switch. -/
structure MatchOptions where
  threshold : ℚ
  includeAA : Bool

/-- Whether pixelmatch counts the `p`-th pixel (flat index `p = y*width + x`)
of the two equally-sized rasters as changed: its colour distance exceeds
`35215 * threshold²` and, unless `includeAA` is set, it is not classified as
anti-aliasing in either image. -/
def pixelChanged (a b : Image) (w h : Nat) (o : MatchOptions) (p : Nat) : Bool :=
  let pos := p * 4
  let delta := colorDelta a.data b.data pos pos false
  decide (|delta| > 35215 * o.threshold * o.threshold) &&
    (o.includeAA ||
      !(antialiased a (p % w) (p / w) w h b || antialiased b (p % w) (p / w) w h a))

/-- The changed-pixel count pixelmatch returns: changed pixels among the
`width * height` flat pixel indices. -/
def pixelmatchCount (a b : Image) (w h : Nat) (o : MatchOptions) : Nat :=
  (List.range (w * h)).countP (pixelChanged a b w h o)

/-- The diff raster pixelmatch draws into the zero-initialised output buffer:
changed pixels in the diff colour `[255,0,0]` (or `[0,255,0]` when the pixel
got lighter), skipped anti-aliasing pixels in `[255,255,0]`, and unchanged
pixels as a dimmed grayscale of the first image (`alpha` 0.2, as
`computeVisualDiff` configures it). -/
def diffRasterByte (a b : Image) (w h : Nat) (o : MatchOptions) (posByte : Nat) : Nat :=
  let c := posByte % 4
  let p := posByte / 4
  if p < w * h then
    let pos := p * 4
    let delta := colorDelta a.data b.data pos pos false
    if |delta| > 35215 * o.threshold * o.threshold then
      if !o.includeAA &&
          (antialiased a (p % w) (p / w) w h b || antialiased b (p % w) (p / w) w h a) then
        if c = 0 ∨ c = 1 ∨ c = 3 then 255 else 0
      else if c = 3 then 255
      else if delta < 0 then (if c = 1 then 255 else 0)
      else (if c = 0 then 255 else 0)
    else if c = 3 then 255
    else
      let y := rgb2y (a.data pos) (a.data (pos+1)) (a.data (pos+2))
      (⌊blend y (0.2 * (a.data (pos+3) : ℚ) / 255)⌋).toNat
  else 0

/-! ### computeVisualDiff (src/services/screenshotService.js lines 524-620) -/

/-- `PNG.bitblt(src, dst, 0, 0, w, h, 0, 0)` into a fresh `new PNG({width, height})`:
the top-left `w × h` rectangle of `src`, anchored at the origin of the
destination. -/
def cropImage (src : Image) (w h : Nat) : Image :=
  { width := w
    height := h
    data := fun posByte =>
      let c := posByte % 4
      let p := posByte / 4
      if p < w * h then src.data ((p / w * src.width + p % w) * 4 + c) else 0 }

/-- The options bag of `computeVisualDiff`: destructured with defaults
`threshold = 0.1` and `includeAA = true` (JS destructuring defaults apply
only to absent fields). -/
structure VisualDiffOptions where
  threshold : Option ℚ := none
  includeAA : Option Bool := none

/-- The `metrics` object `computeVisualDiff` returns. -/
structure DiffMetrics where
  width : Nat
  height : Nat
  totalPixels : Nat
  changedPixels : Nat
  mismatchPercent : ℚ
  ssimScore : ℚ
  threshold : ℚ
  includeAA : Bool

/-- The `images` object `computeVisualDiff` returns: both crops and the diff
raster. -/
structure DiffImages where
  A : Image
  B : Image
  diff : Image

/-- A successful result of `computeVisualDiff`. -/
structure DiffResult where
  metrics : DiffMetrics
  images : DiffImages

instance : Inhabited DiffResult :=
  ⟨⟨⟨0, 0, 0, 0, 0, 0, 0, true⟩, ⟨default, default, default⟩⟩⟩

/-- `computeVisualDiff` on two already-decoded rasters (decoding itself is
done by the external `pngjs` library): normalize to the smaller width and
height, reject a zero or over-10000 normalized dimension with the
image-processing error messages of the outer `catch`, crop both images
top-left, run pixelmatch, and derive the metrics — `mismatchPercent`
rounded to 2 decimals and the approximate `ssimScore` to 4. -/
def computeVisualDiff (imgA imgB : Image) (opts : VisualDiffOptions) :
    Except String DiffResult :=
  let threshold := opts.threshold.getD (1/10)
  let includeAA := opts.includeAA.getD true
  let width := min imgA.width imgB.width
  let height := min imgA.height imgB.height
  if width = 0 ∨ height = 0 then
    .error "Image processing failed: Invalid image dimensions"
  else if width > 10000 ∨ height > 10000 then
    .error "Image processing failed: Image is too large to process"
  else
    let aCrop := cropImage imgA width height
    let bCrop := cropImage imgB width height
    let o : MatchOptions := ⟨threshold, includeAA⟩
    let changedPixels := pixelmatchCount aCrop bCrop width height o
    let totalPixels := width * height
    let mismatchPercent := (changedPixels : ℚ) / (totalPixels : ℚ) * 100
    let ssimScore := 1 - mismatchPercent / 100
    .ok
      { metrics :=
          { width := width
            height := height
            totalPixels := totalPixels
            changedPixels := changedPixels
            mismatchPercent := (jsRound (mismatchPercent * 100) : ℚ) / 100
            ssimScore := (jsRound (ssimScore * 10000) : ℚ) / 10000
            threshold := threshold
            includeAA := includeAA }
        images :=
          { A := aCrop
            B := bCrop
            diff :=
              { width := width
                height := height
                data := diffRasterByte aCrop bCrop width height o } } }

/-- The successful result of `computeVisualDiff`, defaulted: used to state
closed facts about concrete runs. -/
def diffResultD (imgA imgB : Image) (opts : VisualDiffOptions) : DiffResult :=
  (computeVisualDiff imgA imgB opts).toOption.getD default

/-- Whether an `Except` computation succeeded. -/
def exceptIsOk {ε α : Type} : Except ε α → Bool
  | .ok _ => true
  | .error _ => false

/-! ### The screenshot phase of capturePage
(src/services/screenshotService.js lines 184-309) -/

/-- A captured screenshot buffer (opaque to the embedding). -/
abbrev Shot := Nat

/-- The browser automation calls the screenshot phase makes, each of which
can throw: the native full-page screenshot, the DOM measurement of the full
page dimensions, the screenshot clipped to measured dimensions, the
viewport-clipped screenshot, and the fallback viewport screenshot. -/
structure CaptureEnv where
  standardShot : Except String Shot
  measureDims : Except String (ℚ × ℚ)
  clipShot : ℚ → ℚ → Except String Shot
  viewportShot : ℚ → ℚ → Except String Shot
  fallbackShot : Except String Shot

/-- The try block of the screenshot phase: standard full-page capture first,
on failure the clip-based full-page capture from measured DOM dimensions;
without `fullPage`, a single viewport-clipped capture after validating the
clip dimensions.  Returns the buffer with the `captureMethod` tag assigned
next to the successful call. -/
def captureAttempt (fullPage : Bool) (vw vh : ℚ) (env : CaptureEnv) :
    Except String (Shot × String) :=
  if fullPage then
    match env.standardShot with
    | .ok shot => .ok (shot, "standard_fullPage")
    | .error _ =>
      match env.measureDims with
      | .error e => .error e
      | .ok (w, h) =>
        match env.clipShot w h with
        | .ok shot => .ok (shot, "clip_based_fullPage")
        | .error e => .error e
  else
    let clipWidth := jsOrNum (some vw) 1440
    let clipHeight := jsOrNum (some vh) 900
    if clipWidth ≤ 0 ∨ clipHeight ≤ 0 then
      .error "Invalid viewport dimensions for screenshot capture"
    else if clipWidth = 0 ∨ clipHeight = 0 then
      .error "Invalid clip dimensions for screenshot capture"
    else
      match env.viewportShot clipWidth clipHeight with
      | .ok shot => .ok (shot, "viewport")
      | .error e => .error e

/-- The screenshot phase with its `catch`: if the attempt failed while a full
page was requested (so no screenshot was assigned), retry with a viewport
clip tagged `fallback_viewport`; if that also fails, rethrow the error that
escaped the attempt. -/
def captureScreenshotPhase (fullPage : Bool) (vw vh : ℚ) (env : CaptureEnv) :
    Except String (Shot × String) :=
  match captureAttempt fullPage vw vh env with
  | .ok r => .ok r
  | .error screenshotError =>
    if fullPage then
      match env.fallbackShot with
      | .ok shot => .ok (shot, "fallback_viewport")
      | .error _ => .error screenshotError
    else .error screenshotError

/-- The error mapping of `capturePage`'s outer catch
(src/services/screenshotService.js lines 349-370): tag the failure by
substring of the message, and tag anything else as a capture failure. -/
def classifyCaptureError (url msg : String) : String :=
  if jsIncludes msg "Connection refused" then "Network Error: " ++ msg
  else if jsIncludes msg "Could not resolve hostname" then "DNS Error: " ++ msg
  else if jsIncludes msg "SSL/TLS error" then "Security Error: " ++ msg
  else if jsIncludes msg "Navigation timeout" then "Timeout Error: " ++ msg
  else if jsIncludes msg "Required element" then "Content Error: " ++ msg
  else if jsIncludes msg "Page crashed" then "Stability Error: " ++ msg
  else if jsIncludes msg "Screenshot capture failed" then "Capture Error: " ++ msg
  else "Screenshot capture failed for " ++ url ++ ": " ++ msg

/-! ### The content-loading scroll loop
(src/unnamed/part_000 lines 437-583, the most evolved variant) -/

/-- State of the scroll loop: scroll position, the last measured page height
and width, the loop counters and the total scrolled distance, plus the index
of the next height/width measurement the page will answer. -/
structure ScrollState where
  currentPosition : ℚ
  lastHeight : ℚ
  lastWidth : ℚ
  scrollAttempts : Nat
  noChangeCount : Nat
  totalScrollDistance : ℚ
  hIdx : Nat
  wIdx : Nat

/-- Why the scroll loop stopped: it scrolled past the measured bottom, hit
the 50-step safety cap, saw 8 measurements with no growth, exceeded the
100000px height ceiling, or found no further content when probing the very
bottom of a deeply scrolled page. -/
inductive ScrollExit where
  | reachedBottom
  | stepCap
  | noChangeStable
  | heightCeiling
  | bottomNoMore
deriving DecidableEq

/-- One pass of the `while` loop of `scrollToLoadContent`, driven by the
page's height measurements `hseq` and width measurements `wseq` (the page is
free to grow between measurements).  `fuel` only bounds the recursion depth;
`scrollLoop_isSome` shows 51 units always suffice. -/
def scrollLoop (hseq wseq : Nat → ℚ) (scrollStep : ℚ) :
    Nat → ScrollState → Option (ScrollState × ScrollExit)
  | 0, _ => none
  | fuel + 1, s =>
    if ¬ s.currentPosition < s.lastHeight then some (s, .reachedBottom)
    else if ¬ s.scrollAttempts < 50 then some (s, .stepCap)
    else
      let newHeight := hseq s.hIdx
      let newWidth := wseq s.wIdx
      let base : ScrollState :=
        { s with
          currentPosition := s.currentPosition + scrollStep
          totalScrollDistance := s.totalScrollDistance + scrollStep
          hIdx := s.hIdx + 1
          wIdx := s.wIdx + 1 }
      if newHeight > s.lastHeight ∨ newWidth > s.lastWidth then
        let s1 : ScrollState :=
          { base with
            lastHeight := newHeight
            lastWidth := newWidth
            noChangeCount := 0
            currentPosition := min base.currentPosition (newHeight - scrollStep)
            scrollAttempts := s.scrollAttempts + 1 }
        if s1.lastHeight > 100000 then some (s1, .heightCeiling)
        else if s1.totalScrollDistance > 50000 ∧ s1.scrollAttempts > 20 then
          let bottomHeight := hseq s1.hIdx
          if bottomHeight > s1.lastHeight then
            scrollLoop hseq wseq scrollStep fuel
              { s1 with lastHeight := bottomHeight, noChangeCount := 0, hIdx := s1.hIdx + 1 }
          else some ({ s1 with hIdx := s1.hIdx + 1 }, .bottomNoMore)
        else scrollLoop hseq wseq scrollStep fuel s1
      else
        if s.noChangeCount + 1 ≥ 8 then
          some ({ base with noChangeCount := s.noChangeCount + 1 }, .noChangeStable)
        else
          let s1 : ScrollState :=
            { base with
              noChangeCount := s.noChangeCount + 1
              scrollAttempts := s.scrollAttempts + 1 }
          if s1.lastHeight > 100000 then some (s1, .heightCeiling)
          else if s1.totalScrollDistance > 50000 ∧ s1.scrollAttempts > 20 then
            let bottomHeight := hseq s1.hIdx
            if bottomHeight > s1.lastHeight then
              scrollLoop hseq wseq scrollStep fuel
                { s1 with lastHeight := bottomHeight, noChangeCount := 0, hIdx := s1.hIdx + 1 }
            else some ({ s1 with hIdx := s1.hIdx + 1 }, .bottomNoMore)
          else scrollLoop hseq wseq scrollStep fuel s1

/-- `scrollToLoadContent` on a page answering heights `hseq` and widths
`wseq`: read the initial dimensions, fix the adaptive scroll step
`min(800, max(initialHeight / 4, 400))` and run the loop from the top with
enough fuel for its 50-step cap. -/
def runScrollToLoadContent (hseq wseq : Nat → ℚ) : Option (ScrollState × ScrollExit) :=
  let lastHeight := hseq 0
  let lastWidth := wseq 0
  let scrollStep := min 800 (max (lastHeight / 4) 400)
  scrollLoop hseq wseq scrollStep 51
    { currentPosition := 0
      lastHeight := lastHeight
      lastWidth := lastWidth
      scrollAttempts := 0
      noChangeCount := 0
      totalScrollDistance := 0
      hIdx := 1
      wIdx := 1 }

/-- The scroll run stopped for one of the reasons the spec lists for the
convergence loop: content stabilised (no-change threshold), the step cap, or
the height ceiling. -/
def stopsAtClaimedCondition : Option (ScrollState × ScrollExit) → Prop
  | some (_, e) =>
    e = ScrollExit.noChangeStable ∨ e = ScrollExit.stepCap ∨ e = ScrollExit.heightCeiling
  | none => False

/-! ### Session lifecycle (src/services/screenshotService.js lines 14-55 and 679-688) -/

/-- Which of the session's mutable fields (`this.browser`, `this.context`)
are live (non-null). -/
structure SessionState where
  browser : Bool
  context : Bool
deriving DecidableEq

/-- The close calls `cleanup` can make. -/
inductive CloseAction where
  | closeContext
  | closeBrowser
deriving DecidableEq

/-- `initialize`: a no-op when a browser is already live, otherwise launch a
browser and create a context. -/
def sessionInitialize (s : SessionState) : SessionState :=
  if s.browser then s else { browser := true, context := true }

/-- `cleanup`: close and null the context if live, then close and null the
browser if live; also records which close calls were made. -/
def sessionCleanup (s : SessionState) : SessionState × List CloseAction :=
  (⟨false, false⟩,
    (if s.context then [CloseAction.closeContext] else []) ++
      (if s.browser then [CloseAction.closeBrowser] else []))

/-- The prelude of `capturePage`: lazily initialize when no context is live,
then open a page on the context.  The second component says whether
`context.newPage()` was called on a live context. -/
def capturePagePrelude (s : SessionState) : SessionState × Bool :=
  let s1 := if ¬ s.context then sessionInitialize s else s
  (s1, s1.context)

/-! ### Request-option merging at the comparison route
(src/unnamed/part_006 lines 110-123) -/

/-- The options bag a caller may send to `POST /api/compare-ui`; absent keys
are `none`. -/
structure RawOptions where
  waitFor : Option String := none
  fullPage : Option Bool := none
  maskSelectors : Option (List String) := none
  diffThreshold : Option ℚ := none
  includeAA : Option Bool := none
  timeout : Option ℚ := none
  stabilizationDelay : Option ℚ := none

/-- The effective options after the route's merge. -/
structure ComparisonOptions where
  waitFor : String
  fullPage : Bool
  maskSelectors : List String
  diffThreshold : ℚ
  includeAA : Bool
  timeout : ℚ
  stabilizationDelay : ℚ
deriving DecidableEq

/-- JavaScript `x || d` for a possibly-absent string: `undefined` and the
empty string are falsy. -/
def jsOrStr : Option String → String → String
  | none, d => d
  | some s, d => if s = "" then d else s

/-- The route's option merge: `waitFor || 'networkidle'`,
`fullPage !== false`, the default mask selector list, the `diffThreshold`
clamp `min(max(options.diffThreshold || 0.1, 0), 1)`,
`includeAA !== false`, `min(options.timeout || 45000, 120000)` and
`min(options.stabilizationDelay || 1000, 5000)`. -/
def mergeComparisonOptions (o : RawOptions) : ComparisonOptions :=
  { waitFor := jsOrStr o.waitFor "networkidle"
    fullPage := o.fullPage != some false
    maskSelectors := o.maskSelectors.getD
      [".cookie", "#cookie", ".banner", ".ads",
        "[data-testid=\x22cookie\x22]", ".popup", ".modal",
        ".notification", ".alert"]
    diffThreshold := min (max (jsOrNum o.diffThreshold (1/10)) 0) 1
    includeAA := o.includeAA != some false
    timeout := min (jsOrNum o.timeout 45000) 120000
    stabilizationDelay := min (jsOrNum o.stabilizationDelay 1000) 5000 }

/-! ## Helper lemmas -/

/-- Rounding to the nearest integer moves a rational by at most a half. -/
theorem jsRound_sub_le (q : ℚ) : |(jsRound q : ℚ) - q| ≤ 1 / 2 := by
  unfold jsRound
  rw [abs_le]
  constructor
  · have h := Int.lt_floor_add_one (q + 1 / 2)
    push_cast at h ⊢
    linarith
  · have h := Int.floor_le (q + 1 / 2)
    push_cast at h ⊢
    linarith

/-- Reading the top-left crop at an in-range pixel returns the source byte at
the same coordinates. -/
theorem cropImage_data (src : Image) (w h x y c : Nat)
    (hx : x < w) (hy : y < h) (hc : c < 4) :
    (cropImage src w h).data ((y * w + x) * 4 + c) =
      src.data ((y * src.width + x) * 4 + c) := by
  have hw : 0 < w := lt_of_le_of_lt (Nat.zero_le x) hx
  have hmod4 : ((y * w + x) * 4 + c) % 4 = c := by
    rw [Nat.mul_comm (y * w + x) 4, Nat.mul_add_mod, Nat.mod_eq_of_lt hc]
  have hdiv4 : ((y * w + x) * 4 + c) / 4 = y * w + x := by
    rw [Nat.mul_comm (y * w + x) 4, Nat.mul_add_div (by norm_num),
      Nat.div_eq_of_lt hc, Nat.add_zero]
  have hmodw : (y * w + x) % w = x := by
    rw [Nat.mul_comm y w, Nat.mul_add_mod, Nat.mod_eq_of_lt hx]
  have hdivw : (y * w + x) / w = y := by
    rw [Nat.mul_comm y w, Nat.mul_add_div hw, Nat.div_eq_of_lt hx, Nat.add_zero]
  have hin : y * w + x < w * h := by
    calc y * w + x < y * w + w := Nat.add_lt_add_left hx _
    _ = (y + 1) * w := by ring
    _ ≤ h * w := Nat.mul_le_mul_right w hy
    _ = w * h := Nat.mul_comm h w
  unfold cropImage
  simp only [hmod4, hdiv4, hmodw, hdivw, if_pos hin]

/-- A successful `computeVisualDiff` run is exactly the `.ok` payload built
from the normalized dimensions: inversion principle for the two validation
branches. -/
theorem computeVisualDiff_ok_inv (imgA imgB : Image) (opts : VisualDiffOptions)
    (r : DiffResult) (e : computeVisualDiff imgA imgB opts = .ok r) :
    ¬(min imgA.width imgB.width = 0 ∨ min imgA.height imgB.height = 0) ∧
    ¬(min imgA.width imgB.width > 10000 ∨ min imgA.height imgB.height > 10000) ∧
    r = { metrics :=
            { width := min imgA.width imgB.width
              height := min imgA.height imgB.height
              totalPixels := min imgA.width imgB.width * min imgA.height imgB.height
              changedPixels :=
                pixelmatchCount (cropImage imgA (min imgA.width imgB.width) (min imgA.height imgB.height))
                  (cropImage imgB (min imgA.width imgB.width) (min imgA.height imgB.height))
                  (min imgA.width imgB.width) (min imgA.height imgB.height)
                  ⟨opts.threshold.getD (1/10), opts.includeAA.getD true⟩
              mismatchPercent :=
                (jsRound ((pixelmatchCount (cropImage imgA (min imgA.width imgB.width) (min imgA.height imgB.height))
                    (cropImage imgB (min imgA.width imgB.width) (min imgA.height imgB.height))
                    (min imgA.width imgB.width) (min imgA.height imgB.height)
                    ⟨opts.threshold.getD (1/10), opts.includeAA.getD true⟩ : ℚ) /
                  ((min imgA.width imgB.width * min imgA.height imgB.height : Nat) : ℚ) * 100 * 100) : ℚ) / 100
              ssimScore :=
                (jsRound ((1 - (pixelmatchCount (cropImage imgA (min imgA.width imgB.width) (min imgA.height imgB.height))
                    (cropImage imgB (min imgA.width imgB.width) (min imgA.height imgB.height))
                    (min imgA.width imgB.width) (min imgA.height imgB.height)
                    ⟨opts.threshold.getD (1/10), opts.includeAA.getD true⟩ : ℚ) /
                  ((min imgA.width imgB.width * min imgA.height imgB.height : Nat) : ℚ) * 100 / 100) * 10000) : ℚ) / 10000
              threshold := opts.threshold.getD (1/10)
              includeAA := opts.includeAA.getD true }
          images :=
            { A := cropImage imgA (min imgA.width imgB.width) (min imgA.height imgB.height)
              B := cropImage imgB (min imgA.width imgB.width) (min imgA.height imgB.height)
              diff :=
                { width := min imgA.width imgB.width
                  height := min imgA.height imgB.height
                  data := diffRasterByte
                    (cropImage imgA (min imgA.width imgB.width) (min imgA.height imgB.height))
                    (cropImage imgB (min imgA.width imgB.width) (min imgA.height imgB.height))
                    (min imgA.width imgB.width) (min imgA.height imgB.height)
                    ⟨opts.threshold.getD (1/10), opts.includeAA.getD true⟩ } } } := by
  simp only [computeVisualDiff] at e
  split at e
  · exact absurd e (by simp)
  · split at e
    · exact absurd e (by simp)
    · rename_i h1 h2
      refine ⟨h1, h2, ?_⟩
      injection e with e
      exact e.symm

/-- The changed-pixel count of pixelmatch never grows when the threshold is
raised: the anti-aliasing classification is independent of the threshold, and
the colour-distance cutoff `35215·t²` is monotone in `t ≥ 0`. -/
theorem pixelmatchCount_antitone (a b : Image) (w h : Nat) (aa : Bool) (t1 t2 : ℚ)
    (h0 : 0 ≤ t1) (h12 : t1 ≤ t2) :
    pixelmatchCount a b w h ⟨t2, aa⟩ ≤ pixelmatchCount a b w h ⟨t1, aa⟩ := by
  refine List.countP_mono_left fun p _ hp => ?_
  simp only [pixelChanged, Bool.and_eq_true, decide_eq_true_eq] at hp ⊢
  refine ⟨lt_of_le_of_lt ?_ hp.1, hp.2⟩
  have ht : t1 * t1 ≤ t2 * t2 := mul_le_mul h12 h12 h0 (h0.trans h12)
  nlinarith

/-! ## Concrete inputs used by witnesses and counterexamples -/

/-- A 1×3 all-white opaque raster. -/
def cexImgA : Image := ⟨1, 3, fun _ => 255⟩

/-- A 1×3 raster equal to `cexImgA` except that its first pixel is opaque
black. -/
def cexImgB : Image := ⟨1, 3, fun pos => if pos / 4 = 0 ∧ pos % 4 < 3 then 0 else 255⟩

/-- A 10001×10001 all-white raster: larger than 10000×10000. -/
def bigImg : Image := ⟨10001, 10001, fun _ => 255⟩

/-- A single white pixel. -/
def tinyImg : Image := ⟨1, 1, fun _ => 255⟩

/-! ## C1 — threshold monotonicity of the changed-pixel count -/

/-- C1: for the same pair of decoded images and the same `includeAA` setting,
thresholds `0 ≤ t1 < t2 ≤ 1` give `changedPixels` at `t2` no larger than at
`t1` whenever both `computeVisualDiff` runs succeed. -/
theorem computeVisualDiff_threshold_mono
    (imgA imgB : Image) (includeAA : Bool) (t1 t2 : ℚ)
    (h0 : 0 ≤ t1) (h12 : t1 < t2) (h2 : t2 ≤ 1) (r1 r2 : DiffResult)
    (e1 : computeVisualDiff imgA imgB ⟨some t1, some includeAA⟩ = .ok r1)
    (e2 : computeVisualDiff imgA imgB ⟨some t2, some includeAA⟩ = .ok r2) :
    r2.metrics.changedPixels ≤ r1.metrics.changedPixels := by
  obtain ⟨-, -, rfl⟩ := computeVisualDiff_ok_inv _ _ _ _ e1
  obtain ⟨-, -, rfl⟩ := computeVisualDiff_ok_inv _ _ _ _ e2
  exact pixelmatchCount_antitone _ _ _ _ _ _ _ h0 h12.le

/-- Witness for C1 at a concrete image pair and thresholds 0.1 < 0.5. -/
theorem computeVisualDiff_threshold_mono_witness :
    (diffResultD cexImgA cexImgB ⟨some (1/2), some true⟩).metrics.changedPixels ≤
      (diffResultD cexImgA cexImgB ⟨some (1/10), some true⟩).metrics.changedPixels :=
  computeVisualDiff_threshold_mono cexImgA cexImgB true (1/10) (1/2)
    (by norm_num) (by norm_num) (by norm_num) _ _ rfl rfl

/-! ## C2 — normalized dimensions and top-left anchored crops -/

/-- C2: every successful `computeVisualDiff` run reports metric dimensions
`min(widthA, widthB) × min(heightA, heightB)`, its diff raster and both crops
have exactly those dimensions, and both crops read the source images at
unshifted coordinates (top-left anchored). -/
theorem computeVisualDiff_dims_min
    (imgA imgB : Image) (opts : VisualDiffOptions) (r : DiffResult)
    (e : computeVisualDiff imgA imgB opts = .ok r) :
    r.metrics.width = min imgA.width imgB.width ∧
    r.metrics.height = min imgA.height imgB.height ∧
    r.images.diff.width = min imgA.width imgB.width ∧
    r.images.diff.height = min imgA.height imgB.height ∧
    r.images.A.width = min imgA.width imgB.width ∧
    r.images.A.height = min imgA.height imgB.height ∧
    r.images.B.width = min imgA.width imgB.width ∧
    r.images.B.height = min imgA.height imgB.height ∧
    (∀ x y c, x < min imgA.width imgB.width → y < min imgA.height imgB.height → c < 4 →
      r.images.A.data ((y * min imgA.width imgB.width + x) * 4 + c) =
        imgA.data ((y * imgA.width + x) * 4 + c) ∧
      r.images.B.data ((y * min imgA.width imgB.width + x) * 4 + c) =
        imgB.data ((y * imgB.width + x) * 4 + c)) := by
  obtain ⟨-, -, rfl⟩ := computeVisualDiff_ok_inv _ _ _ _ e
  refine ⟨rfl, rfl, rfl, rfl, rfl, rfl, rfl, rfl, fun x y c hx hy hc => ?_⟩
  exact ⟨cropImage_data imgA _ _ x y c hx hy hc, cropImage_data imgB _ _ x y c hx hy hc⟩

/-- Witness for C2 at a concrete image pair. -/
theorem computeVisualDiff_dims_min_witness :
    (diffResultD cexImgA cexImgB {}).metrics.width = min cexImgA.width cexImgB.width ∧
    (diffResultD cexImgA cexImgB {}).metrics.height = min cexImgA.height cexImgB.height ∧
    (diffResultD cexImgA cexImgB {}).images.diff.width = min cexImgA.width cexImgB.width ∧
    (diffResultD cexImgA cexImgB {}).images.diff.height = min cexImgA.height cexImgB.height ∧
    (diffResultD cexImgA cexImgB {}).images.A.width = min cexImgA.width cexImgB.width ∧
    (diffResultD cexImgA cexImgB {}).images.A.height = min cexImgA.height cexImgB.height ∧
    (diffResultD cexImgA cexImgB {}).images.B.width = min cexImgA.width cexImgB.width ∧
    (diffResultD cexImgA cexImgB {}).images.B.height = min cexImgA.height cexImgB.height ∧
    (∀ x y c, x < min cexImgA.width cexImgB.width → y < min cexImgA.height cexImgB.height →
      c < 4 →
      (diffResultD cexImgA cexImgB {}).images.A.data
          ((y * min cexImgA.width cexImgB.width + x) * 4 + c) =
        cexImgA.data ((y * cexImgA.width + x) * 4 + c) ∧
      (diffResultD cexImgA cexImgB {}).images.B.data
          ((y * min cexImgA.width cexImgB.width + x) * 4 + c) =
        cexImgB.data ((y * cexImgB.width + x) * 4 + c)) :=
  computeVisualDiff_dims_min cexImgA cexImgB {} _ rfl

/-! ## C3 — the returned ratio metrics -/

/-- C3 (amended): every successful run reports `totalPixels` as the product
of the normalized dimensions, at most that many changed pixels, and a
`mismatchPercent` equal to `100 * changedPixels / totalPixels` rounded to two
decimals (`Math.round(x * 100) / 100`), not the exact ratio. -/
theorem computeVisualDiff_metrics_rounded
    (imgA imgB : Image) (opts : VisualDiffOptions) (r : DiffResult)
    (e : computeVisualDiff imgA imgB opts = .ok r) :
    r.metrics.totalPixels = r.metrics.width * r.metrics.height ∧
    r.metrics.changedPixels ≤ r.metrics.totalPixels ∧
    r.metrics.mismatchPercent =
      (jsRound ((r.metrics.changedPixels : ℚ) / (r.metrics.totalPixels : ℚ) * 100 * 100) : ℚ) /
        100 := by
  obtain ⟨-, -, rfl⟩ := computeVisualDiff_ok_inv _ _ _ _ e
  refine ⟨rfl, ?_, rfl⟩
  simpa [pixelmatchCount] using
    List.countP_le_length (l := List.range (min imgA.width imgB.width * min imgA.height imgB.height))
      (p := pixelChanged (cropImage imgA (min imgA.width imgB.width) (min imgA.height imgB.height))
        (cropImage imgB (min imgA.width imgB.width) (min imgA.height imgB.height))
        (min imgA.width imgB.width) (min imgA.height imgB.height)
        ⟨opts.threshold.getD (1/10), opts.includeAA.getD true⟩)

/-- Witness for C3's amended statement at a concrete image pair. -/
theorem computeVisualDiff_metrics_rounded_witness :
    (diffResultD cexImgA cexImgB {}).metrics.totalPixels =
      (diffResultD cexImgA cexImgB {}).metrics.width *
        (diffResultD cexImgA cexImgB {}).metrics.height ∧
    (diffResultD cexImgA cexImgB {}).metrics.changedPixels ≤
      (diffResultD cexImgA cexImgB {}).metrics.totalPixels ∧
    (diffResultD cexImgA cexImgB {}).metrics.mismatchPercent =
      (jsRound (((diffResultD cexImgA cexImgB {}).metrics.changedPixels : ℚ) /
          ((diffResultD cexImgA cexImgB {}).metrics.totalPixels : ℚ) * 100 * 100) : ℚ) / 100 :=
  computeVisualDiff_metrics_rounded cexImgA cexImgB {} _ rfl

/-- On the 1×3 counterexample pair, only the first pixel counts as changed at
the default threshold. -/
theorem cexCount_eq_one :
    pixelmatchCount (cropImage cexImgA 1 3) (cropImage cexImgB 1 3) 1 3 ⟨1/10, true⟩ = 1 := by
  have h0 : pixelChanged (cropImage cexImgA 1 3) (cropImage cexImgB 1 3) 1 3 ⟨1/10, true⟩ 0
      = true := by
    norm_num [pixelChanged, colorDelta, cropImage, cexImgA, cexImgB, rgb2y, rgb2i, rgb2q,
      blend, abs]
  have h1 : pixelChanged (cropImage cexImgA 1 3) (cropImage cexImgB 1 3) 1 3 ⟨1/10, true⟩ 1
      = false := by
    norm_num [pixelChanged, colorDelta, cropImage, cexImgA, cexImgB]
  have h2 : pixelChanged (cropImage cexImgA 1 3) (cropImage cexImgB 1 3) 1 3 ⟨1/10, true⟩ 2
      = false := by
    norm_num [pixelChanged, colorDelta, cropImage, cexImgA, cexImgB]
  have hr : List.range (1 * 3) = [0, 1, 2] := rfl
  rw [pixelmatchCount, hr]
  simp only [List.countP_cons, List.countP_nil, h0, h1, h2]
  norm_num

/-- C3 counterexample: on the 1×3 pair with one changed pixel the reported
`mismatchPercent` is 33.33, not the exact ratio 100·1/3. -/
theorem mismatchPercent_not_exact_ratio :
    computeVisualDiff cexImgA cexImgB {} = .ok (diffResultD cexImgA cexImgB {}) ∧
    (diffResultD cexImgA cexImgB {}).metrics.mismatchPercent ≠
      100 * ((diffResultD cexImgA cexImgB {}).metrics.changedPixels : ℚ) /
        ((diffResultD cexImgA cexImgB {}).metrics.totalPixels : ℚ) := by
  refine ⟨rfl, ?_⟩
  show (jsRound ((pixelmatchCount (cropImage cexImgA 1 3) (cropImage cexImgB 1 3) 1 3
      ⟨1/10, true⟩ : ℚ) / ((3 : Nat) : ℚ) * 100 * 100) : ℚ) / 100 ≠
    100 * (pixelmatchCount (cropImage cexImgA 1 3) (cropImage cexImgB 1 3) 1 3
      ⟨1/10, true⟩ : ℚ) / ((3 : Nat) : ℚ)
  rw [cexCount_eq_one]
  have hround : jsRound (((1 : Nat) : ℚ) / ((3 : Nat) : ℚ) * 100 * 100) = 3333 := by
    rw [jsRound, Int.floor_eq_iff]
    norm_num
  rw [hround]
  norm_num

/-! ## C6 — size validation of the diff inputs -/

/-- C6 (amended): the zero-area and over-10000 checks apply to the
*normalized* `min` dimensions, not to each decoded image: a zero-area
normalized rectangle errors, a normalized dimension over 10000 (which needs
both images over the limit on that axis) errors, and otherwise the run
succeeds even if a single input image exceeds 10000×10000. -/
theorem computeVisualDiff_size_checks (imgA imgB : Image) (opts : VisualDiffOptions) :
    (min imgA.width imgB.width = 0 ∨ min imgA.height imgB.height = 0 →
      computeVisualDiff imgA imgB opts =
        .error "Image processing failed: Invalid image dimensions") ∧
    (¬(min imgA.width imgB.width = 0 ∨ min imgA.height imgB.height = 0) →
      min imgA.width imgB.width > 10000 ∨ min imgA.height imgB.height > 10000 →
      computeVisualDiff imgA imgB opts =
        .error "Image processing failed: Image is too large to process") ∧
    (¬(min imgA.width imgB.width = 0 ∨ min imgA.height imgB.height = 0) →
      ¬(min imgA.width imgB.width > 10000 ∨ min imgA.height imgB.height > 10000) →
      exceptIsOk (computeVisualDiff imgA imgB opts) = true) := by
  refine ⟨fun hz => ?_, fun hz ho => ?_, fun hz ho => ?_⟩
  · simp only [computeVisualDiff]
    rw [if_pos hz]
  · simp only [computeVisualDiff]
    rw [if_neg hz, if_pos ho]
  · simp only [computeVisualDiff]
    rw [if_neg hz, if_neg ho]
    rfl

/-- C6 counterexample: a 10001×10001 image paired with a 1×1 image is not
rejected — the diff succeeds because only the normalized 1×1 rectangle is
checked. -/
theorem oversize_single_image_not_rejected :
    bigImg.width > 10000 ∧ bigImg.height > 10000 ∧
      exceptIsOk (computeVisualDiff bigImg tinyImg {}) = true := by
  refine ⟨by decide, by decide, ?_⟩
  rfl

/-- Witness for C6's amended statement: a 10001-wide normalized rectangle
(both images over the limit) is rejected as too large. -/
theorem computeVisualDiff_size_checks_witness :
    computeVisualDiff bigImg bigImg {} =
      .error "Image processing failed: Image is too large to process" :=
  (computeVisualDiff_size_checks bigImg bigImg {}).2.1 (by decide) (by decide)

/-! ## C10 — rounding of mismatchPercent and ssimScore -/

/-- C10: the reported `mismatchPercent` is the exact ratio rounded to 2
decimals and `ssimScore` is 1 minus the unrounded ratio over 100 rounded to
4 decimals, so they deviate from the exact formulas by at most 0.005 and
0.00005. -/
theorem computeVisualDiff_rounding_bound
    (imgA imgB : Image) (opts : VisualDiffOptions) (r : DiffResult)
    (e : computeVisualDiff imgA imgB opts = .ok r) :
    r.metrics.mismatchPercent =
      (jsRound ((r.metrics.changedPixels : ℚ) / (r.metrics.totalPixels : ℚ) * 100 * 100) : ℚ) /
        100 ∧
    r.metrics.ssimScore =
      (jsRound ((1 - (r.metrics.changedPixels : ℚ) / (r.metrics.totalPixels : ℚ) * 100 / 100) *
        10000) : ℚ) / 10000 ∧
    |r.metrics.mismatchPercent -
        (r.metrics.changedPixels : ℚ) / (r.metrics.totalPixels : ℚ) * 100| ≤ 5 / 1000 ∧
    |r.metrics.ssimScore -
        (1 - (r.metrics.changedPixels : ℚ) / (r.metrics.totalPixels : ℚ) * 100 / 100)| ≤
      5 / 100000 := by
  obtain ⟨-, -, rfl⟩ := computeVisualDiff_ok_inv _ _ _ _ e
  refine ⟨rfl, rfl, ?_, ?_⟩
  · set x : ℚ := (pixelmatchCount
      (cropImage imgA (min imgA.width imgB.width) (min imgA.height imgB.height))
      (cropImage imgB (min imgA.width imgB.width) (min imgA.height imgB.height))
      (min imgA.width imgB.width) (min imgA.height imgB.height)
      ⟨opts.threshold.getD (1/10), opts.includeAA.getD true⟩ : ℚ) /
      ((min imgA.width imgB.width * min imgA.height imgB.height : Nat) : ℚ) * 100 with hx
    have h1 := Int.floor_le (x * 100 + 1 / 2)
    have h2 := Int.lt_floor_add_one (x * 100 + 1 / 2)
    simp only [jsRound]
    rw [abs_le]
    constructor <;> linarith
  · set x : ℚ := 1 - (pixelmatchCount
      (cropImage imgA (min imgA.width imgB.width) (min imgA.height imgB.height))
      (cropImage imgB (min imgA.width imgB.width) (min imgA.height imgB.height))
      (min imgA.width imgB.width) (min imgA.height imgB.height)
      ⟨opts.threshold.getD (1/10), opts.includeAA.getD true⟩ : ℚ) /
      ((min imgA.width imgB.width * min imgA.height imgB.height : Nat) : ℚ) * 100 / 100 with hx
    have h1 := Int.floor_le (x * 10000 + 1 / 2)
    have h2 := Int.lt_floor_add_one (x * 10000 + 1 / 2)
    simp only [jsRound]
    rw [abs_le]
    constructor <;> linarith

/-- Witness for C10 at a concrete image pair. -/
theorem computeVisualDiff_rounding_bound_witness :
    |(diffResultD cexImgA cexImgB {}).metrics.mismatchPercent -
        ((diffResultD cexImgA cexImgB {}).metrics.changedPixels : ℚ) /
          ((diffResultD cexImgA cexImgB {}).metrics.totalPixels : ℚ) * 100| ≤ 5 / 1000 ∧
    |(diffResultD cexImgA cexImgB {}).metrics.ssimScore -
        (1 - ((diffResultD cexImgA cexImgB {}).metrics.changedPixels : ℚ) /
          ((diffResultD cexImgA cexImgB {}).metrics.totalPixels : ℚ) * 100 / 100)| ≤
      5 / 100000 :=
  ⟨(computeVisualDiff_rounding_bound cexImgA cexImgB {} _ rfl).2.2.1,
    (computeVisualDiff_rounding_bound cexImgA cexImgB {} _ rfl).2.2.2⟩

/-! ## C4 — captureMethod records the strategy that actually succeeded -/

/-- C4: whenever the screenshot phase returns a buffer and a
`captureMethod`, the method names exactly the strategy whose call produced
that buffer — never a strategy that was attempted but failed. -/
theorem captureMethod_matches_success
    (fullPage : Bool) (vw vh : ℚ) (env : CaptureEnv) (buf : Shot) (m : String)
    (h : captureScreenshotPhase fullPage vw vh env = .ok (buf, m)) :
    (m = "standard_fullPage" ∧ fullPage = true ∧ env.standardShot = .ok buf) ∨
    (m = "clip_based_fullPage" ∧ fullPage = true ∧
      ∃ w hh : ℚ, env.measureDims = .ok (w, hh) ∧ env.clipShot w hh = .ok buf) ∨
    (m = "viewport" ∧ fullPage = false ∧
      env.viewportShot (jsOrNum (some vw) 1440) (jsOrNum (some vh) 900) = .ok buf) ∨
    (m = "fallback_viewport" ∧ fullPage = true ∧ env.fallbackShot = .ok buf) := by
  obtain ⟨std, md, cs, vs, fs⟩ := env
  cases fullPage with
  | true =>
    cases std with
    | ok shot =>
      simp only [captureScreenshotPhase, captureAttempt, if_true, Except.ok.injEq,
        Prod.mk.injEq] at h
      exact Or.inl ⟨h.2.symm, rfl, by rw [h.1]⟩
    | error e1 =>
      cases md with
      | error e =>
        cases fs with
        | ok shot =>
          simp only [captureScreenshotPhase, captureAttempt, if_true, Except.ok.injEq,
            Prod.mk.injEq] at h
          exact Or.inr (Or.inr (Or.inr ⟨h.2.symm, rfl, by rw [h.1]⟩))
        | error e3 =>
          simp only [captureScreenshotPhase, captureAttempt, if_true] at h
          exact absurd h (by simp)
      | ok dims =>
        obtain ⟨w, hh⟩ := dims
        cases hcs : cs w hh with
        | ok shot =>
          simp only [captureScreenshotPhase, captureAttempt, if_true, hcs, Except.ok.injEq,
            Prod.mk.injEq] at h
          refine Or.inr (Or.inl ⟨h.2.symm, rfl, w, hh, rfl, ?_⟩)
          show cs w hh = Except.ok buf
          rw [hcs, h.1]
        | error e2 =>
          cases fs with
          | ok shot =>
            simp only [captureScreenshotPhase, captureAttempt, if_true, hcs, Except.ok.injEq,
              Prod.mk.injEq] at h
            exact Or.inr (Or.inr (Or.inr ⟨h.2.symm, rfl, by rw [h.1]⟩))
          | error e3 =>
            simp only [captureScreenshotPhase, captureAttempt, if_true, hcs] at h
            exact absurd h (by simp)
  | false =>
    simp only [captureScreenshotPhase, captureAttempt, Bool.false_eq_true, if_false] at h
    by_cases hcl : jsOrNum (some vw) 1440 ≤ 0 ∨ jsOrNum (some vh) 900 ≤ 0
    · rw [if_pos hcl] at h
      exact absurd h (by simp)
    · rw [if_neg hcl] at h
      by_cases hcz : jsOrNum (some vw) 1440 = 0 ∨ jsOrNum (some vh) 900 = 0
      · rw [if_pos hcz] at h
        exact absurd h (by simp)
      · rw [if_neg hcz] at h
        cases hvs : vs (jsOrNum (some vw) 1440) (jsOrNum (some vh) 900) with
        | ok shot =>
          rw [hvs] at h
          simp only [Except.ok.injEq, Prod.mk.injEq] at h
          refine Or.inr (Or.inr (Or.inl ⟨h.2.symm, rfl, ?_⟩))
          show vs (jsOrNum (some vw) 1440) (jsOrNum (some vh) 900) = Except.ok buf
          rw [hvs, h.1]
        | error e =>
          rw [hvs] at h
          exact absurd h (by simp)

/-- An environment whose standard full-page strategy succeeds. -/
def envStandardOk : CaptureEnv :=
  { standardShot := .ok 7
    measureDims := .ok (800, 600)
    clipShot := fun _ _ => .error "clip not attempted"
    viewportShot := fun _ _ => .error "viewport not attempted"
    fallbackShot := .error "fallback not attempted" }

/-- Witness for C4: with a succeeding standard strategy the returned method
is `standard_fullPage` and the buffer is the standard strategy's. -/
theorem captureMethod_matches_success_witness :
    ("standard_fullPage" = "standard_fullPage" ∧ true = true ∧
      envStandardOk.standardShot = .ok 7) ∨
    ("standard_fullPage" = "clip_based_fullPage" ∧ true = true ∧
      ∃ w hh : ℚ, envStandardOk.measureDims = .ok (w, hh) ∧
        envStandardOk.clipShot w hh = .ok 7) ∨
    ("standard_fullPage" = "viewport" ∧ true = false ∧
      envStandardOk.viewportShot (jsOrNum (some 1440) 1440) (jsOrNum (some 900) 900) = .ok 7) ∨
    ("standard_fullPage" = "fallback_viewport" ∧ true = true ∧
      envStandardOk.fallbackShot = .ok 7) :=
  captureMethod_matches_success true 1440 900 envStandardOk 7 "standard_fullPage" rfl

/-! ## C5 — the error propagated when every strategy fails -/

/-- C5 (amended): when the standard full-page strategy, the clip-based
strategy and the viewport fallback all fail, the screenshot phase propagates
the error of the clip-based attempt — the error that escaped the full-page
try block — not the original error of the standard strategy; the outer
handler then tags a plain message as a capture failure. -/
theorem capture_allfail_propagates_clip_error
    (vw vh : ℚ) (env : CaptureEnv) (e1 e2 e3 : String) (w hh : ℚ) (url : String)
    (hs : env.standardShot = .error e1)
    (hd : env.measureDims = .ok (w, hh))
    (hc : env.clipShot w hh = .error e2)
    (hf : env.fallbackShot = .error e3)
    (hn1 : jsIncludes e2 "Connection refused" = false)
    (hn2 : jsIncludes e2 "Could not resolve hostname" = false)
    (hn3 : jsIncludes e2 "SSL/TLS error" = false)
    (hn4 : jsIncludes e2 "Navigation timeout" = false)
    (hn5 : jsIncludes e2 "Required element" = false)
    (hn6 : jsIncludes e2 "Page crashed" = false)
    (hn7 : jsIncludes e2 "Screenshot capture failed" = false) :
    captureScreenshotPhase true vw vh env = .error e2 ∧
    classifyCaptureError url e2 = "Screenshot capture failed for " ++ url ++ ": " ++ e2 := by
  constructor
  · obtain ⟨std, md, cs, vs, fs⟩ := env
    replace hs : std = Except.error e1 := hs
    replace hd : md = Except.ok (w, hh) := hd
    replace hc : cs w hh = Except.error e2 := hc
    replace hf : fs = Except.error e3 := hf
    subst hs
    subst hd
    subst hf
    simp only [captureScreenshotPhase, captureAttempt, if_true, hc]
  · unfold classifyCaptureError
    rw [hn1, hn2, hn3, hn4, hn5, hn6, hn7]
    simp

/-- An environment in which every strategy fails, with distinct error
messages per stage. -/
def envAllFail : CaptureEnv :=
  { standardShot := .error "standard boom"
    measureDims := .ok (800, 600)
    clipShot := fun _ _ => .error "clip boom"
    viewportShot := fun _ _ => .error "viewport boom"
    fallbackShot := .error "fallback boom" }

/-- C5 counterexample: with every strategy failing, the propagated error is
the clip-based attempt's, not the standard (state 1) strategy's error. -/
theorem capture_allfail_not_first_error :
    captureScreenshotPhase true 1440 900 envAllFail = .error "clip boom" ∧
    envAllFail.standardShot = .error "standard boom" ∧
    "clip boom" ≠ "standard boom" :=
  ⟨rfl, rfl, by decide⟩

/-- Witness for C5's amended statement on the concrete all-fail
environment. -/
theorem capture_allfail_propagates_clip_error_witness :
    captureScreenshotPhase true 1440 900 envAllFail = .error "clip boom" ∧
    classifyCaptureError "http://a" "clip boom" =
      "Screenshot capture failed for " ++ "http://a" ++ ": " ++ "clip boom" :=
  capture_allfail_propagates_clip_error 1440 900 envAllFail
    "standard boom" "clip boom" "fallback boom" 800 600 "http://a"
    rfl rfl rfl rfl (by decide) (by decide) (by decide) (by decide) (by decide)
    (by decide) (by decide)

/-! ## C7 — termination of the content-loading scroll loop -/

/-- Every iteration of the scroll loop increments `scrollAttempts`, so
`50 - scrollAttempts` units of fuel are never exhausted: the loop always
reaches one of its exits. -/
theorem scrollLoop_isSome (hseq wseq : Nat → ℚ) (step : ℚ) :
    ∀ (fuel : Nat) (s : ScrollState), 50 - s.scrollAttempts < fuel →
      (scrollLoop hseq wseq step fuel s).isSome = true := by
  intro fuel
  induction fuel with
  | zero => intro s hf; omega
  | succ n ih =>
    intro s hf
    simp only [scrollLoop]
    split
    · rfl
    · split
      · rfl
      · rename_i hpos hatt
        have ha : s.scrollAttempts < 50 := not_not.mp hatt
        split
        · split
          · rfl
          · split
            · split
              · exact ih _ (show 50 - (s.scrollAttempts + 1) < n by omega)
              · rfl
            · exact ih _ (show 50 - (s.scrollAttempts + 1) < n by omega)
        · split
          · rfl
          · split
            · rfl
            · split
              · split
                · exact ih _ (show 50 - (s.scrollAttempts + 1) < n by omega)
                · rfl
              · exact ih _ (show 50 - (s.scrollAttempts + 1) < n by omega)

/-- Invariant of the scroll loop on a page whose height strictly grows at
every measurement: the last measured height is the most recent answer and
the scroll position is still above it. -/
def ScrollInv (hseq : Nat → ℚ) (s : ScrollState) : Prop :=
  1 ≤ s.hIdx ∧ s.lastHeight = hseq (s.hIdx - 1) ∧ s.currentPosition < s.lastHeight

/-- On a strictly growing page the loop can only exit at the step cap or the
height ceiling (never by reaching the bottom, stabilising, or the
bottom-probe). -/
theorem scrollLoop_growing_exit (hseq wseq : Nat → ℚ) (step : ℚ)
    (hstep : 0 < step) (hmono : ∀ k, hseq k < hseq (k + 1)) :
    ∀ (fuel : Nat) (s : ScrollState), ScrollInv hseq s →
      ∀ r, scrollLoop hseq wseq step fuel s = some r →
        r.2 = ScrollExit.stepCap ∨ r.2 = ScrollExit.heightCeiling := by
  intro fuel
  induction fuel with
  | zero =>
    intro s _ r hr
    simp [scrollLoop] at hr
  | succ n ih =>
    intro s hinv r hr
    have hgrow : hseq s.hIdx > s.lastHeight := by
      rw [hinv.2.1]
      have hm := hmono (s.hIdx - 1)
      have h1 := hinv.1
      have he : s.hIdx - 1 + 1 = s.hIdx := by omega
      rwa [he] at hm
    simp only [scrollLoop] at hr
    rw [if_neg (not_not_intro hinv.2.2)] at hr
    split at hr
    · injection hr with hr
      rw [← hr]
      exact Or.inl rfl
    · rw [if_pos (Or.inl hgrow)] at hr
      split at hr
      · injection hr with hr
        rw [← hr]
        exact Or.inr rfl
      · split at hr
        · rw [if_pos (by
            show hseq (s.hIdx + 1) > hseq s.hIdx
            exact hmono s.hIdx)] at hr
          refine ih _ ⟨?_, ?_, ?_⟩ r hr
          · show 1 ≤ s.hIdx + 1 + 1
            omega
          · show hseq (s.hIdx + 1) = hseq (s.hIdx + 1 + 1 - 1)
            rfl
          · show min (s.currentPosition + step) (hseq s.hIdx - step) < hseq (s.hIdx + 1)
            calc min (s.currentPosition + step) (hseq s.hIdx - step) ≤ hseq s.hIdx - step :=
              min_le_right _ _
            _ < hseq s.hIdx := by linarith
            _ < hseq (s.hIdx + 1) := hmono s.hIdx
        · refine ih _ ⟨?_, ?_, ?_⟩ r hr
          · show 1 ≤ s.hIdx + 1
            omega
          · show hseq s.hIdx = hseq (s.hIdx + 1 - 1)
            rfl
          · show min (s.currentPosition + step) (hseq s.hIdx - step) < hseq s.hIdx
            calc min (s.currentPosition + step) (hseq s.hIdx - step) ≤ hseq s.hIdx - step :=
              min_le_right _ _
            _ < hseq s.hIdx := by linarith

/-- C7: the content-loading scroll loop always terminates — with fuel for
its 50-step cap it returns an exit for every page behaviour — and on a page
whose measured height grows at every step (with a positive initial height)
it stops through the no-change threshold, the step cap, or the height
ceiling, never looping indefinitely. -/
theorem scrollToLoadContent_terminates :
    (∀ hseq wseq : Nat → ℚ, (runScrollToLoadContent hseq wseq).isSome = true) ∧
    (∀ hseq wseq : Nat → ℚ, 0 < hseq 0 → (∀ k, hseq k < hseq (k + 1)) →
      stopsAtClaimedCondition (runScrollToLoadContent hseq wseq)) := by
  constructor
  · intro hseq wseq
    exact scrollLoop_isSome hseq wseq _ 51 _ (by omega)
  · intro hseq wseq h0 hmono
    have hstep : 0 < min 800 (max (hseq 0 / 4) 400) :=
      lt_min (by norm_num) (lt_max_iff.mpr (Or.inr (by norm_num)))
    obtain ⟨r, hr⟩ := Option.isSome_iff_exists.mp
      (scrollLoop_isSome hseq wseq (min 800 (max (hseq 0 / 4) 400)) 51
        { currentPosition := 0, lastHeight := hseq 0, lastWidth := wseq 0,
          scrollAttempts := 0, noChangeCount := 0, totalScrollDistance := 0,
          hIdx := 1, wIdx := 1 } (by omega))
    have hexit := scrollLoop_growing_exit hseq wseq _ hstep hmono 51 _
      ⟨le_refl 1, rfl, h0⟩ r hr
    have hrun : runScrollToLoadContent hseq wseq = some r := hr
    rw [hrun]
    obtain ⟨s, e⟩ := r
    show e = ScrollExit.noChangeStable ∨ e = ScrollExit.stepCap ∨ e = ScrollExit.heightCeiling
    rcases hexit with he | he
    · exact Or.inr (Or.inl he)
    · exact Or.inr (Or.inr he)

/-- A page whose measured height starts at 1000 and grows by 1000 on every
measurement. -/
def growSeq : Nat → ℚ := fun k => 1000 * ((k : ℚ) + 1)

/-- A page whose measured width is constantly 1440. -/
def constSeq : Nat → ℚ := fun _ => 1440

/-- Witness for C7: on the ever-growing page the loop stops at one of the
claimed conditions. -/
theorem scrollToLoadContent_terminates_witness :
    stopsAtClaimedCondition (runScrollToLoadContent growSeq constSeq) :=
  scrollToLoadContent_terminates.2 growSeq constSeq
    (by norm_num [growSeq])
    (fun k => by
      simp only [growSeq]
      push_cast
      linarith)

/-! ## C8 — effective options at the comparison request boundary -/

/-- C8 (amended): the route's merge clamps `diffThreshold` into [0,1] with
default 0.1, but a caller-supplied value is used unchanged only when it is
*nonzero* (JavaScript `options.diffThreshold || 0.1` treats 0 as absent);
`timeout` is capped at 120000 with default 45000, `stabilizationDelay` is
capped at 5000 with default 1000, and `fullPage` and `includeAA` default to
true. -/
theorem mergeOptions_contract (o : RawOptions) :
    (∀ v : ℚ, o.diffThreshold = some v → 0 ≤ v → v ≤ 1 → v ≠ 0 →
      (mergeComparisonOptions o).diffThreshold = v) ∧
    (o.diffThreshold = none → (mergeComparisonOptions o).diffThreshold = 1/10) ∧
    0 ≤ (mergeComparisonOptions o).diffThreshold ∧
    (mergeComparisonOptions o).diffThreshold ≤ 1 ∧
    (mergeComparisonOptions o).timeout ≤ 120000 ∧
    (o.timeout = none → (mergeComparisonOptions o).timeout = 45000) ∧
    (mergeComparisonOptions o).stabilizationDelay ≤ 5000 ∧
    (o.stabilizationDelay = none → (mergeComparisonOptions o).stabilizationDelay = 1000) ∧
    (o.fullPage = none → (mergeComparisonOptions o).fullPage = true) ∧
    (o.includeAA = none → (mergeComparisonOptions o).includeAA = true) := by
  refine ⟨?_, ?_, ?_, ?_, ?_, ?_, ?_, ?_, ?_, ?_⟩
  · intro v hv h0 h1 hnz
    simp only [mergeComparisonOptions, hv, jsOrNum, if_neg hnz]
    rw [max_eq_left h0, min_eq_left h1]
  · intro hv
    simp only [mergeComparisonOptions, hv, jsOrNum]
    rw [max_eq_left (by norm_num), min_eq_left (by norm_num)]
  · exact le_min (le_max_right _ _) (by norm_num)
  · exact min_le_right _ _
  · exact min_le_right _ _
  · intro hv
    simp only [mergeComparisonOptions, hv, jsOrNum]
    rw [min_eq_left (by norm_num)]
  · exact min_le_right _ _
  · intro hv
    simp only [mergeComparisonOptions, hv, jsOrNum]
    rw [min_eq_left (by norm_num)]
  · intro hv
    simp [mergeComparisonOptions, hv]
  · intro hv
    simp [mergeComparisonOptions, hv]

/-- C8 counterexample: the caller-supplied threshold 0 lies in [0,1] but is
not used unchanged — JavaScript `0 || 0.1` replaces it with the default. -/
theorem diffThreshold_zero_replaced :
    (0 : ℚ) ≤ 0 ∧ (0 : ℚ) ≤ 1 ∧
    (mergeComparisonOptions { diffThreshold := some 0 }).diffThreshold = 1/10 ∧
    (1/10 : ℚ) ≠ 0 := by
  refine ⟨le_refl 0, by norm_num, ?_, by norm_num⟩
  have h1 : jsOrNum (some 0) (1/10) = 1/10 := by norm_num [jsOrNum]
  simp only [mergeComparisonOptions, h1]
  rw [max_eq_left (by norm_num), min_eq_left (by norm_num)]

/-- Witness for C8's amended statement: a nonzero in-range threshold passes
through unchanged and an absent timeout defaults to 45000. -/
theorem mergeOptions_contract_witness :
    (mergeComparisonOptions { diffThreshold := some (1/2) }).diffThreshold = 1/2 ∧
    (mergeComparisonOptions { diffThreshold := some (1/2) }).timeout = 45000 :=
  ⟨(mergeOptions_contract { diffThreshold := some (1/2) }).1 (1/2) rfl
      (by norm_num) (by norm_num) (by norm_num),
    (mergeOptions_contract { diffThreshold := some (1/2) }).2.2.2.2.2.1 rfl⟩

/-! ## C9 — session disposal -/

/-- C9 (amended): `cleanup` is idempotent — a second `cleanup` performs no
close calls — but a capture on a disposed session does not fail with a
lifecycle error: `capturePage` lazily re-initializes a fresh browser and
context and opens its page on the live context. -/
theorem session_cleanup_idempotent_lazy_reinit (s : SessionState) :
    (sessionCleanup (sessionCleanup s).1).1 = (sessionCleanup s).1 ∧
    (sessionCleanup (sessionCleanup s).1).2 = [] ∧
    (capturePagePrelude (sessionCleanup s).1).2 = true ∧
    (capturePagePrelude (sessionCleanup s).1).1 = ⟨true, true⟩ :=
  ⟨rfl, rfl, rfl, rfl⟩

/-- C9 counterexample: opening a page right after disposing a live session
succeeds (on a freshly initialized context) instead of failing with a
lifecycle error. -/
theorem capture_after_dispose_succeeds :
    (capturePagePrelude (sessionCleanup ⟨true, true⟩).1).2 = true ∧
    (sessionCleanup (sessionCleanup ⟨true, true⟩).1).2 = [] :=
  ⟨rfl, rfl⟩

end PixelPerfect
